import Mathlib

/-!
Verification of the reader-writer lock family in `rw_lock/locks.py` and
`rw_lock/lock.py`.

Each lock class is embedded as a transition system. A state holds the
Python instance attributes (counters as `Int`, flags as `Bool`). Every
monitor-protected code section becomes one atomic step; a
`Condition.wait` loop splits its enclosing monitor section in two, so a
blocking acquire is modelled by a `start` step (the code before the
wait loop) and a `finish` step whose enabling guard is the negation of
the wait-loop condition (the code after the wait loop). Notifications
(`notify` / `notify_all`) are recorded as explicit `Wake` actions so
that the wake-up protocol is part of the model.
-/

/-- The condition variables appearing in the two source files. -/
inductive CondVar : Type where
  | readersOk : CondVar
  | writersOk : CondVar
  | queue : CondVar
deriving DecidableEq, Repr

/-- The wake action performed by a release: nothing, a targeted
`notify()` on one condition variable, or a broadcast `notify_all()`. -/
inductive Wake : Type where
  | silent : Wake
  | notifyOne : CondVar → Wake
  | notifyAll : CondVar → Wake
deriving DecidableEq, Repr

/-! ## WriterPriorityRWLock (rw_lock/locks.py, lines 77-140) -/

/-- Instance attributes of `WriterPriorityRWLock` in `locks.py`:
`_reader_count`, `_writer_active`, `_writer_waiting_count`. -/
structure WPState : Type where
  reader_count : Int
  writer_active : Bool
  writer_waiting_count : Int
deriving DecidableEq, Repr

/-- `__init__`: all counters zero, no active writer. -/
def WPState.init : WPState :=
  { reader_count := 0, writer_active := false, writer_waiting_count := 0 }

namespace WP

/-- `_read_acquire`, code after the wait loop: `self._reader_count += 1`. -/
def readAcquire (s : WPState) : WPState :=
  { s with reader_count := s.reader_count + 1 }

/-- Wait-loop condition of `_read_acquire`:
`while self._writer_active or self._writer_waiting_count > 0`.
The step completes exactly when this is false. -/
def readAcquireGuard (s : WPState) : Prop :=
  ¬(s.writer_active = true ∨ 0 < s.writer_waiting_count)

/-- `_read_release`: decrement `_reader_count`; if the result is zero and
writers are waiting, `self._writers_ok.notify()`. -/
def readRelease (s : WPState) : WPState × Wake :=
  let s1 : WPState := { s with reader_count := s.reader_count - 1 }
  (s1, if s1.reader_count = 0 ∧ 0 < s1.writer_waiting_count
       then Wake.notifyOne CondVar.writersOk else Wake.silent)

/-- `_write_acquire`, code before the wait loop:
`self._writer_waiting_count += 1`. -/
def writeStart (s : WPState) : WPState :=
  { s with writer_waiting_count := s.writer_waiting_count + 1 }

/-- Wait-loop condition of `_write_acquire`:
`while self._reader_count > 0 or self._writer_active`. -/
def writeFinishGuard (s : WPState) : Prop :=
  ¬(0 < s.reader_count ∨ s.writer_active = true)

/-- `_write_acquire`, code after the wait loop:
`self._writer_waiting_count -= 1; self._writer_active = True`. -/
def writeFinish (s : WPState) : WPState :=
  { s with writer_waiting_count := s.writer_waiting_count - 1,
           writer_active := true }

/-- `_write_release`: `self._writer_active = False`; then notify one
waiting writer if any, else `notify_all` the readers. -/
def writeRelease (s : WPState) : WPState × Wake :=
  let s1 : WPState := { s with writer_active := false }
  (s1, if 0 < s1.writer_waiting_count
       then Wake.notifyOne CondVar.writersOk
       else Wake.notifyAll CondVar.readersOk)

/-- Labels of the atomic monitor sections of `WriterPriorityRWLock`. -/
inductive Op : Type where
  | readAcquire : Op
  | readRelease : Op
  | writeStart : Op
  | writeFinish : Op
  | writeRelease : Op
deriving DecidableEq, Repr

/-- State transition of each atomic section. -/
def apply : Op → WPState → WPState
  | Op.readAcquire, s => readAcquire s
  | Op.readRelease, s => (readRelease s).1
  | Op.writeStart, s => writeStart s
  | Op.writeFinish, s => writeFinish s
  | Op.writeRelease, s => (writeRelease s).1

/-- Enabling condition for each atomic section to complete: the wait-loop
condition must be false for the post-wait halves of the acquires
(`writeFinish` moreover belongs to a thread that ran `writeStart`, so
the waiting counter is positive there); releases always run. -/
def enabled : Op → WPState → Prop
  | Op.readAcquire, s => readAcquireGuard s
  | Op.readRelease, _ => True
  | Op.writeStart, _ => True
  | Op.writeFinish, s => 0 < s.writer_waiting_count ∧ writeFinishGuard s
  | Op.writeRelease, _ => True

/-- Extra precondition making a release matched: a `release_read` is
preceded by a successful `acquire_read` still held (so `reader_count`
is positive), a `release_write` by a held `acquire_write`. -/
def matchedPre : Op → WPState → Prop
  | Op.readRelease, s => 0 < s.reader_count
  | Op.writeRelease, s => s.writer_active = true
  | _, _ => True

/-- States reachable from the initial state by any sequence of completed
atomic sections (releases unconstrained). -/
inductive Reachable : WPState → Prop where
  | init : Reachable WPState.init
  | step (op : Op) (s : WPState) : Reachable s → enabled op s →
      Reachable (apply op s)

/-- States reachable from the initial state when every release is
matched by its prior successful acquire. -/
inductive MReachable : WPState → Prop where
  | init : MReachable WPState.init
  | step (op : Op) (s : WPState) : MReachable s → enabled op s →
      matchedPre op s → MReachable (apply op s)

end WP

/-! ## Scoped wrappers (the `@contextmanager` methods)

Every lock class defines `read()` / `write()` as
`acquire; try: yield; finally: release`. The caller's critical-section
body is modelled by its outcome, an `Except E A` (an `error` models the
body raising). `runBody` embeds the `try/finally`: on both exit paths
(normal value or propagating error) the release runs, and the body's
outcome is returned unchanged. -/

/-- `try: yield; finally: release()`: apply the release on every exit
path of the body and propagate the body's outcome unchanged. -/
def runBody {σ E A : Type} (release : σ → σ × Wake) :
    σ × Except E A → (σ × Wake) × Except E A
  | (s, Except.ok a) => (release s, Except.ok a)
  | (s, Except.error e) => (release s, Except.error e)

namespace WP

/-- `WriterPriorityRWLock.read()` in `locks.py`: `_read_acquire`, yield,
finally `_read_release`. -/
def readScoped {E A : Type} (s : WPState) (body : Except E A) :
    (WPState × Wake) × Except E A :=
  runBody readRelease (readAcquire s, body)

/-- `WriterPriorityRWLock.write()` in `locks.py`: `_write_acquire`
(both halves), yield, finally `_write_release`. -/
def writeScoped {E A : Type} (s : WPState) (body : Except E A) :
    (WPState × Wake) × Except E A :=
  runBody writeRelease (writeFinish (writeStart s), body)

end WP

/-! ## FairRWLock (rw_lock/locks.py, lines 146-220) -/

/-- Instance attributes of `FairRWLock`: `_readers_active`,
`_writer_active`, `_waiting_count`. -/
structure FairState : Type where
  readers_active : Int
  writer_active : Bool
  waiting_count : Int
deriving DecidableEq, Repr

/-- `__init__`: all counters zero, no active writer. -/
def FairState.init : FairState :=
  { readers_active := 0, writer_active := false, waiting_count := 0 }

namespace Fair

/-- `_read_acquire`, code before the wait loop:
`self._waiting_count += 1`. -/
def readStart (s : FairState) : FairState :=
  { s with waiting_count := s.waiting_count + 1 }

/-- Wait-loop condition of `_read_acquire`: `while self._writer_active`. -/
def readFinishGuard (s : FairState) : Prop :=
  ¬(s.writer_active = true)

/-- `_read_acquire`, code after the wait loop:
`self._waiting_count -= 1; self._readers_active += 1`. -/
def readFinish (s : FairState) : FairState :=
  { s with waiting_count := s.waiting_count - 1,
           readers_active := s.readers_active + 1 }

/-- `_read_release`: decrement `_readers_active`; if the result is zero
and threads are waiting, `self._queue.notify_all()`. -/
def readRelease (s : FairState) : FairState × Wake :=
  let s1 : FairState := { s with readers_active := s.readers_active - 1 }
  (s1, if s1.readers_active = 0 ∧ 0 < s1.waiting_count
       then Wake.notifyAll CondVar.queue else Wake.silent)

/-- `_write_acquire`, code before the wait loop:
`self._waiting_count += 1`. -/
def writeStart (s : FairState) : FairState :=
  { s with waiting_count := s.waiting_count + 1 }

/-- Wait-loop condition of `_write_acquire`:
`while self._readers_active > 0 or self._writer_active`. -/
def writeFinishGuard (s : FairState) : Prop :=
  ¬(0 < s.readers_active ∨ s.writer_active = true)

/-- `_write_acquire`, code after the wait loop:
`self._waiting_count -= 1; self._writer_active = True`. -/
def writeFinish (s : FairState) : FairState :=
  { s with waiting_count := s.waiting_count - 1, writer_active := true }

/-- `_write_release`: `self._writer_active = False`; if threads are
waiting, `self._queue.notify_all()`. -/
def writeRelease (s : FairState) : FairState × Wake :=
  let s1 : FairState := { s with writer_active := false }
  (s1, if 0 < s1.waiting_count
       then Wake.notifyAll CondVar.queue else Wake.silent)

/-- Labels of the atomic monitor sections of `FairRWLock`. -/
inductive Op : Type where
  | readStart : Op
  | readFinish : Op
  | readRelease : Op
  | writeStart : Op
  | writeFinish : Op
  | writeRelease : Op
deriving DecidableEq, Repr

/-- State transition of each atomic section. -/
def apply : Op → FairState → FairState
  | Op.readStart, s => readStart s
  | Op.readFinish, s => readFinish s
  | Op.readRelease, s => (readRelease s).1
  | Op.writeStart, s => writeStart s
  | Op.writeFinish, s => writeFinish s
  | Op.writeRelease, s => (writeRelease s).1

/-- Enabling condition for each atomic section: the `finish` halves need
the wait-loop condition to be false and belong to a thread counted in
`waiting_count`; the rest always run. -/
def enabled : Op → FairState → Prop
  | Op.readStart, _ => True
  | Op.readFinish, s => 0 < s.waiting_count ∧ readFinishGuard s
  | Op.readRelease, _ => True
  | Op.writeStart, _ => True
  | Op.writeFinish, s => 0 < s.waiting_count ∧ writeFinishGuard s
  | Op.writeRelease, _ => True

/-- Extra precondition making a release matched by its acquire. -/
def matchedPre : Op → FairState → Prop
  | Op.readRelease, s => 0 < s.readers_active
  | Op.writeRelease, s => s.writer_active = true
  | _, _ => True

/-- States reachable by any sequence of completed atomic sections. -/
inductive Reachable : FairState → Prop where
  | init : Reachable FairState.init
  | step (op : Op) (s : FairState) : Reachable s → enabled op s →
      Reachable (apply op s)

/-- States reachable when every release is matched by its acquire. -/
inductive MReachable : FairState → Prop where
  | init : MReachable FairState.init
  | step (op : Op) (s : FairState) : MReachable s → enabled op s →
      matchedPre op s → MReachable (apply op s)

/-- `FairRWLock.read()`: `_read_acquire` (both halves), yield, finally
`_read_release`. -/
def readScoped {E A : Type} (s : FairState) (body : Except E A) :
    (FairState × Wake) × Except E A :=
  runBody readRelease (readFinish (readStart s), body)

/-- `FairRWLock.write()`: `_write_acquire` (both halves), yield, finally
`_write_release`. -/
def writeScoped {E A : Type} (s : FairState) (body : Except E A) :
    (FairState × Wake) × Except E A :=
  runBody writeRelease (writeFinish (writeStart s), body)

end Fair

/-! ## ReaderPriorityRWLock (rw_lock/locks.py, lines 16-71) -/

/-- Instance attributes of `ReaderPriorityRWLock`: `_reader_count` and
the writer gate `_writer_lock` (a `threading.Lock`, modelled as the
boolean of whether it is held). -/
structure RPState : Type where
  reader_count : Int
  writer_lock : Bool
deriving DecidableEq, Repr

/-- `__init__`: no readers, writer gate free. -/
def RPState.init : RPState :=
  { reader_count := 0, writer_lock := false }

namespace RP

/-- `_read_acquire`: under the monitor, `self._reader_count += 1`; if
the new count is 1 the thread acquires `_writer_lock` on behalf of
the reader group. -/
def readAcquire (s : RPState) : RPState :=
  { reader_count := s.reader_count + 1,
    writer_lock := if s.reader_count + 1 = 1 then true else s.writer_lock }

/-- A `_read_acquire` section can only complete when the inner
`_writer_lock.acquire()` it may perform does not block: whenever the
count transitions to 1 the gate must be free. -/
def readAcquireGuard (s : RPState) : Prop :=
  s.reader_count + 1 = 1 → s.writer_lock = false

/-- `_read_release`: under the monitor, `self._reader_count -= 1`; if
the new count is 0 the gate is released. -/
def readRelease (s : RPState) : RPState :=
  { reader_count := s.reader_count - 1,
    writer_lock := if s.reader_count - 1 = 0 then false else s.writer_lock }

/-- `_write_acquire`: `self._writer_lock.acquire()` directly. -/
def writeAcquire (s : RPState) : RPState :=
  { s with writer_lock := true }

/-- `_write_acquire` completes only when the gate is free. -/
def writeAcquireGuard (s : RPState) : Prop :=
  s.writer_lock = false

/-- `_write_release`: `self._writer_lock.release()` directly. -/
def writeRelease (s : RPState) : RPState :=
  { s with writer_lock := false }

/-- Labels of the atomic steps of `ReaderPriorityRWLock`. -/
inductive Op : Type where
  | readAcquire : Op
  | readRelease : Op
  | writeAcquire : Op
  | writeRelease : Op
deriving DecidableEq, Repr

/-- State transition of each step. -/
def apply : Op → RPState → RPState
  | Op.readAcquire, s => readAcquire s
  | Op.readRelease, s => readRelease s
  | Op.writeAcquire, s => writeAcquire s
  | Op.writeRelease, s => writeRelease s

/-- Enabling condition of each step. -/
def enabled : Op → RPState → Prop
  | Op.readAcquire, s => readAcquireGuard s
  | Op.readRelease, _ => True
  | Op.writeAcquire, s => writeAcquireGuard s
  | Op.writeRelease, _ => True

/-- Extra precondition making a release matched by its acquire. -/
def matchedPre : Op → RPState → Prop
  | Op.readRelease, s => 0 < s.reader_count
  | Op.writeRelease, s => s.writer_lock = true
  | _, _ => True

/-- States reachable when every release is matched by its acquire. -/
inductive MReachable : RPState → Prop where
  | init : MReachable RPState.init
  | step (op : Op) (s : RPState) : MReachable s → enabled op s →
      matchedPre op s → MReachable (apply op s)

/-- `ReaderPriorityRWLock.read()`: `_read_acquire`, yield, finally
`_read_release` (the reader release performs no notification). -/
def readScoped {E A : Type} (s : RPState) (body : Except E A) :
    (RPState × Wake) × Except E A :=
  runBody (fun t => (readRelease t, Wake.silent)) (readAcquire s, body)

/-- `ReaderPriorityRWLock.write()`: `_write_acquire`, yield, finally
`_write_release`. -/
def writeScoped {E A : Type} (s : RPState) (body : Except E A) :
    (RPState × Wake) × Except E A :=
  runBody (fun t => (writeRelease t, Wake.silent)) (writeAcquire s, body)

end RP

/-! ## WriterPriorityRWLock (rw_lock/lock.py, lines 10-101)

The second source file defines a class with the same name and the same
three attributes, so it is embedded over the same `WPState`, but every
method below is translated from `lock.py` independently. -/

namespace LockPy

/-- `lock.py` `_read_acquire`, code after the wait loop:
`self._reader_count += 1`. -/
def readAcquire (s : WPState) : WPState :=
  { s with reader_count := s.reader_count + 1 }

/-- `lock.py` `_read_acquire` wait-loop condition:
`while self._writer_active or self._writer_waiting_count > 0`. -/
def readAcquireGuard (s : WPState) : Prop :=
  ¬(s.writer_active = true ∨ 0 < s.writer_waiting_count)

/-- `lock.py` `_read_release`: decrement; if the result is zero and a
writer is waiting, `self._writers_ok.notify()`. -/
def readRelease (s : WPState) : WPState × Wake :=
  let s1 : WPState := { s with reader_count := s.reader_count - 1 }
  (s1, if s1.reader_count = 0 ∧ 0 < s1.writer_waiting_count
       then Wake.notifyOne CondVar.writersOk else Wake.silent)

/-- `lock.py` `_write_acquire`, code before the wait loop:
`self._writer_waiting_count += 1`. -/
def writeStart (s : WPState) : WPState :=
  { s with writer_waiting_count := s.writer_waiting_count + 1 }

/-- `lock.py` `_write_acquire` wait-loop condition:
`while self._reader_count > 0 or self._writer_active`. -/
def writeFinishGuard (s : WPState) : Prop :=
  ¬(0 < s.reader_count ∨ s.writer_active = true)

/-- `lock.py` `_write_acquire`, code after the wait loop:
`self._writer_waiting_count -= 1; self._writer_active = True`. -/
def writeFinish (s : WPState) : WPState :=
  { s with writer_waiting_count := s.writer_waiting_count - 1,
           writer_active := true }

/-- `lock.py` `_write_release`: clear `_writer_active`; notify one
waiting writer if any, else `notify_all` the readers. -/
def writeRelease (s : WPState) : WPState × Wake :=
  let s1 : WPState := { s with writer_active := false }
  (s1, if 0 < s1.writer_waiting_count
       then Wake.notifyOne CondVar.writersOk
       else Wake.notifyAll CondVar.readersOk)

/-- `lock.py` `read()`: `_read_acquire`, yield, finally `_read_release`. -/
def readScoped {E A : Type} (s : WPState) (body : Except E A) :
    (WPState × Wake) × Except E A :=
  runBody readRelease (readAcquire s, body)

/-- `lock.py` `write()`: `_write_acquire` (both halves), yield, finally
`_write_release`. -/
def writeScoped {E A : Type} (s : WPState) (body : Except E A) :
    (WPState × Wake) × Except E A :=
  runBody writeRelease (writeFinish (writeStart s), body)

end LockPy

/-! ## Theorems -/

/-- Strengthened inductive invariant for `WriterPriorityRWLock`: while a
writer is active the reader count is at most zero. -/
theorem WP.wp_active_no_readers (s : WPState) (h : WP.Reachable s) :
    s.writer_active = true → s.reader_count ≤ 0 := by
  induction h with
  | init => intro hw; simp [WPState.init] at hw
  | step op t _ he ih =>
    cases op with
    | readAcquire =>
      intro hw
      simp only [WP.apply, WP.readAcquire] at hw ⊢
      simp only [WP.enabled, WP.readAcquireGuard] at he
      exact absurd (Or.inl hw) he
    | readRelease =>
      intro hw
      simp only [WP.apply, WP.readRelease] at hw ⊢
      have := ih hw
      omega
    | writeStart =>
      intro hw
      simp only [WP.apply, WP.writeStart] at hw ⊢
      exact ih hw
    | writeFinish =>
      intro _
      simp only [WP.apply, WP.writeFinish]
      simp only [WP.enabled, WP.writeFinishGuard] at he
      omega
    | writeRelease =>
      intro hw
      simp only [WP.apply, WP.writeRelease] at hw
      exact absurd hw (by simp)

/-- Strengthened inductive invariant for `FairRWLock`: while a writer is
active the reader count is at most zero. -/
theorem Fair.fair_active_no_readers (s : FairState) (h : Fair.Reachable s) :
    s.writer_active = true → s.readers_active ≤ 0 := by
  induction h with
  | init => intro hw; simp [FairState.init] at hw
  | step op t _ he ih =>
    cases op with
    | readStart =>
      intro hw
      simp only [Fair.apply, Fair.readStart] at hw ⊢
      exact ih hw
    | readFinish =>
      intro hw
      simp only [Fair.apply, Fair.readFinish] at hw
      simp only [Fair.enabled, Fair.readFinishGuard] at he
      exact absurd hw he.2
    | readRelease =>
      intro hw
      simp only [Fair.apply, Fair.readRelease] at hw ⊢
      have := ih hw
      omega
    | writeStart =>
      intro hw
      simp only [Fair.apply, Fair.writeStart] at hw ⊢
      exact ih hw
    | writeFinish =>
      intro _
      simp only [Fair.apply, Fair.writeFinish]
      simp only [Fair.enabled, Fair.writeFinishGuard] at he
      omega
    | writeRelease =>
      intro hw
      simp only [Fair.apply, Fair.writeRelease] at hw
      exact absurd hw (by simp)

/-- Claim C1: for `WriterPriorityRWLock` and `FairRWLock`, in every state
reachable from the initial all-zero state by completed
acquire/release steps, it is never the case that `writer_active` is
true while the reader count is positive. -/
theorem C1_no_reader_while_writer_active :
    (∀ s : WPState, WP.Reachable s →
      ¬(s.writer_active = true ∧ 0 < s.reader_count)) ∧
    (∀ s : FairState, Fair.Reachable s →
      ¬(s.writer_active = true ∧ 0 < s.readers_active)) := by
  constructor
  · intro s h hc
    have := WP.wp_active_no_readers s h hc.1
    omega
  · intro s h hc
    have := Fair.fair_active_no_readers s h hc.1
    omega

/-- Claim C1 witness: the invariant instantiated at the initial states,
whose reachability is immediate. -/
theorem C1_no_reader_while_writer_active_witness :
    ¬(WPState.init.writer_active = true ∧ 0 < WPState.init.reader_count) ∧
    ¬(FairState.init.writer_active = true ∧ 0 < FairState.init.readers_active) :=
  ⟨C1_no_reader_while_writer_active.1 WPState.init WP.Reachable.init,
   C1_no_reader_while_writer_active.2 FairState.init Fair.Reachable.init⟩

/-- Claim C2: for every policy, `read()` and `write()` run the matching
release on every exit path of the body (the final state is exactly the
release applied to the acquired state, whether the body returned a
value or an error); the body's error propagates unchanged; and after a
body raises inside `write()`, `writer_active` (resp. the writer gate)
is false and a subsequent `acquire_write` can complete. -/
theorem C2_scoped_wrappers_release_on_every_path :
    ∀ (E A : Type) (s : WPState) (t : FairState) (r : RPState)
      (body : Except E A),
      ((WP.readScoped s body).2 = body ∧
        (WP.readScoped s body).1 = WP.readRelease (WP.readAcquire s)) ∧
      ((WP.writeScoped s body).2 = body ∧
        (WP.writeScoped s body).1 =
          WP.writeRelease (WP.writeFinish (WP.writeStart s)) ∧
        (WP.writeScoped s body).1.1.writer_active = false ∧
        (WP.writeFinishGuard s → 0 ≤ s.writer_waiting_count →
          WP.enabled WP.Op.writeFinish
            (WP.writeStart (WP.writeScoped s body).1.1))) ∧
      ((Fair.readScoped t body).2 = body ∧
        (Fair.readScoped t body).1 =
          Fair.readRelease (Fair.readFinish (Fair.readStart t))) ∧
      ((Fair.writeScoped t body).2 = body ∧
        (Fair.writeScoped t body).1 =
          Fair.writeRelease (Fair.writeFinish (Fair.writeStart t)) ∧
        (Fair.writeScoped t body).1.1.writer_active = false ∧
        (Fair.writeFinishGuard t → 0 ≤ t.waiting_count →
          Fair.enabled Fair.Op.writeFinish
            (Fair.writeStart (Fair.writeScoped t body).1.1))) ∧
      ((RP.readScoped r body).2 = body ∧
        (RP.readScoped r body).1.1 = RP.readRelease (RP.readAcquire r)) ∧
      ((RP.writeScoped r body).2 = body ∧
        (RP.writeScoped r body).1.1 = RP.writeRelease (RP.writeAcquire r) ∧
        (RP.writeScoped r body).1.1.writer_lock = false ∧
        RP.writeAcquireGuard (RP.writeScoped r body).1.1) := by
  intro E A s t r body
  have hWPfinal : (WP.writeScoped s body).1.1 =
      { reader_count := s.reader_count, writer_active := false,
        writer_waiting_count := s.writer_waiting_count + 1 - 1 } := by
    cases body <;> rfl
  have hFairfinal : (Fair.writeScoped t body).1.1 =
      { readers_active := t.readers_active, writer_active := false,
        waiting_count := t.waiting_count + 1 - 1 } := by
    cases body <;> rfl
  refine ⟨⟨?_, ?_⟩, ⟨?_, ?_, ?_, ?_⟩, ⟨?_, ?_⟩, ⟨?_, ?_, ?_, ?_⟩,
    ⟨?_, ?_⟩, ⟨?_, ?_, ?_, ?_⟩⟩
  · cases body <;> rfl
  · cases body <;> rfl
  · cases body <;> rfl
  · cases body <;> rfl
  · rw [hWPfinal]
  · intro hg hw
    simp only [WP.writeFinishGuard] at hg
    push_neg at hg
    rw [hWPfinal]
    simp [WP.enabled, WP.writeStart, WP.writeFinishGuard]
    omega
  · cases body <;> rfl
  · cases body <;> rfl
  · cases body <;> rfl
  · cases body <;> rfl
  · rw [hFairfinal]
  · intro hg hw
    simp only [Fair.writeFinishGuard] at hg
    push_neg at hg
    rw [hFairfinal]
    simp [Fair.enabled, Fair.writeStart, Fair.writeFinishGuard]
    omega
  · cases body <;> rfl
  · cases body <;> rfl
  · cases body <;> rfl
  · cases body <;> rfl
  · cases body <;> rfl
  · cases body <;> rfl

/-- Claim C2 witness: the wrapper contract evaluated with an erroring
body at concrete states, every hypothesis discharged. -/
theorem C2_scoped_wrappers_release_on_every_path_witness :
    (WP.writeScoped WPState.init (Except.error (7 : Nat) : Except Nat Unit)).2
        = Except.error 7 ∧
    (WP.writeScoped WPState.init
        (Except.error (7 : Nat) : Except Nat Unit)).1.1.writer_active = false ∧
    WP.enabled WP.Op.writeFinish (WP.writeStart
      (WP.writeScoped WPState.init
        (Except.error (7 : Nat) : Except Nat Unit)).1.1) ∧
    Fair.enabled Fair.Op.writeFinish (Fair.writeStart
      (Fair.writeScoped FairState.init
        (Except.error (7 : Nat) : Except Nat Unit)).1.1) ∧
    RP.writeAcquireGuard
      (RP.writeScoped RPState.init
        (Except.error (7 : Nat) : Except Nat Unit)).1.1 := by
  have h := C2_scoped_wrappers_release_on_every_path Nat Unit WPState.init
    FairState.init RPState.init (Except.error 7)
  exact ⟨h.2.1.1, h.2.1.2.2.1,
    h.2.1.2.2.2 (by simp [WP.writeFinishGuard, WPState.init]) (by simp [WPState.init]),
    h.2.2.2.1.2.2.2 (by simp [Fair.writeFinishGuard, FairState.init]) (by simp [FairState.init]),
    h.2.2.2.2.2.2.2.2⟩

/-- Claim C3 counterexample: calling `release_read` on a fresh instance
(reader count zero, no prior acquire) does not fail fast in any of the
three classes: each plain decrement silently drives the reader count
to `-1`. -/
theorem C3_release_read_counterexample :
    (WP.readRelease WPState.init).1.reader_count = -1 ∧
    (Fair.readRelease FairState.init).1.readers_active = -1 ∧
    (RP.readRelease RPState.init).reader_count = -1 := by
  refine ⟨rfl, rfl, rfl⟩

/-- Claim C3 amended: for every policy, `release_read()` on an instance
whose reader count is 0 performs no contract check and silently
decrements the count to `-1`; no wake action fires, and for
`ReaderPriorityRWLock` the writer gate is left untouched (the
post-decrement count is `-1`, not `0`). -/
theorem C3_release_read_underflow :
    ∀ (s : WPState) (t : FairState) (r : RPState),
      s.reader_count = 0 → t.readers_active = 0 → r.reader_count = 0 →
      ((WP.readRelease s).1.reader_count = -1 ∧
        (WP.readRelease s).2 = Wake.silent) ∧
      ((Fair.readRelease t).1.readers_active = -1 ∧
        (Fair.readRelease t).2 = Wake.silent) ∧
      ((RP.readRelease r).reader_count = -1 ∧
        (RP.readRelease r).writer_lock = r.writer_lock) := by
  intro s t r hs ht hr
  refine ⟨⟨by simp [WP.readRelease, hs], ?_⟩,
    ⟨by simp [Fair.readRelease, ht], ?_⟩,
    ⟨by simp [RP.readRelease, hr], ?_⟩⟩
  · simp [WP.readRelease, hs]
  · simp [Fair.readRelease, ht]
  · simp [RP.readRelease, hr]

/-- Claim C3 amended witness: the underflow behaviour at fresh
instances. -/
theorem C3_release_read_underflow_witness :
    (WP.readRelease WPState.init).1.reader_count = -1 ∧
    (RP.readRelease RPState.init).writer_lock = RPState.init.writer_lock :=
  ⟨(C3_release_read_underflow WPState.init FairState.init RPState.init
      rfl rfl rfl).1.1,
   (C3_release_read_underflow WPState.init FairState.init RPState.init
      rfl rfl rfl).2.2.2⟩

/-- Claim C4: in `WriterPriorityRWLock` a read-acquire step can never
complete while `writer_waiting_count` is positive or `writer_active`
is true — its wait loop keeps the step disabled, so waiting writers
block all new readers until the waiting count returns to zero. -/
theorem C4_waiting_writers_block_new_readers :
    ∀ s : WPState, 0 < s.writer_waiting_count ∨ s.writer_active = true →
      ¬ WP.enabled WP.Op.readAcquire s := by
  intro s h he
  simp only [WP.enabled, WP.readAcquireGuard] at he
  exact he (h.elim Or.inr Or.inl)

/-- Claim C4 witness: with one waiting writer registered (and with an
active writer), the read-acquire step is disabled. -/
theorem C4_waiting_writers_block_new_readers_witness :
    ¬ WP.enabled WP.Op.readAcquire
        { reader_count := 0, writer_active := false,
          writer_waiting_count := 1 } ∧
    ¬ WP.enabled WP.Op.readAcquire
        { reader_count := 0, writer_active := true,
          writer_waiting_count := 0 } :=
  ⟨C4_waiting_writers_block_new_readers _ (Or.inl (by decide)),
   C4_waiting_writers_block_new_readers _ (Or.inr rfl)⟩

/-- Matched-reachability invariant of `WriterPriorityRWLock`: both
counters stay nonnegative. -/
theorem WP.wp_counters_nonneg (s : WPState) (h : WP.MReachable s) :
    0 ≤ s.reader_count ∧ 0 ≤ s.writer_waiting_count := by
  induction h with
  | init => exact ⟨le_refl 0, le_refl 0⟩
  | step op t _ he hm ih =>
    cases op with
    | readAcquire =>
      simp only [WP.apply, WP.readAcquire]
      omega
    | readRelease =>
      simp only [WP.matchedPre] at hm
      simp only [WP.apply, WP.readRelease]
      omega
    | writeStart =>
      simp only [WP.apply, WP.writeStart]
      omega
    | writeFinish =>
      simp only [WP.enabled] at he
      simp only [WP.apply, WP.writeFinish]
      omega
    | writeRelease =>
      simp only [WP.apply, WP.writeRelease]
      omega

/-- Matched-reachability invariant of `FairRWLock`: both counters stay
nonnegative. -/
theorem Fair.fair_counters_nonneg (s : FairState) (h : Fair.MReachable s) :
    0 ≤ s.readers_active ∧ 0 ≤ s.waiting_count := by
  induction h with
  | init => exact ⟨le_refl 0, le_refl 0⟩
  | step op t _ he hm ih =>
    cases op with
    | readStart =>
      simp only [Fair.apply, Fair.readStart]
      omega
    | readFinish =>
      simp only [Fair.enabled] at he
      simp only [Fair.apply, Fair.readFinish]
      omega
    | readRelease =>
      simp only [Fair.matchedPre] at hm
      simp only [Fair.apply, Fair.readRelease]
      omega
    | writeStart =>
      simp only [Fair.apply, Fair.writeStart]
      omega
    | writeFinish =>
      simp only [Fair.enabled] at he
      simp only [Fair.apply, Fair.writeFinish]
      omega
    | writeRelease =>
      simp only [Fair.apply, Fair.writeRelease]
      omega

/-- Matched-reachability invariant of `ReaderPriorityRWLock`: the reader
count stays nonnegative. -/
theorem RP.counter_nonneg (s : RPState) (h : RP.MReachable s) :
    0 ≤ s.reader_count := by
  induction h with
  | init => exact le_refl 0
  | step op t _ he hm ih =>
    cases op with
    | readAcquire =>
      simp only [RP.apply, RP.readAcquire]
      omega
    | readRelease =>
      simp only [RP.matchedPre] at hm
      simp only [RP.apply, RP.readRelease]
      omega
    | writeAcquire =>
      simp only [RP.apply, RP.writeAcquire]
      omega
    | writeRelease =>
      simp only [RP.apply, RP.writeRelease]
      omega

/-- Claim C5: for every policy, in every state reachable by matched
acquire/release steps, the reader count and every waiting counter are
nonnegative. -/
theorem C5_counters_nonnegative :
    (∀ s : WPState, WP.MReachable s →
      0 ≤ s.reader_count ∧ 0 ≤ s.writer_waiting_count) ∧
    (∀ s : FairState, Fair.MReachable s →
      0 ≤ s.readers_active ∧ 0 ≤ s.waiting_count) ∧
    (∀ s : RPState, RP.MReachable s → 0 ≤ s.reader_count) :=
  ⟨WP.wp_counters_nonneg, Fair.fair_counters_nonneg, RP.counter_nonneg⟩

/-- Claim C5 witness: nonnegativity instantiated at the initial states,
whose matched reachability is immediate. -/
theorem C5_counters_nonnegative_witness :
    (0 ≤ WPState.init.reader_count ∧
      0 ≤ WPState.init.writer_waiting_count) ∧
    (0 ≤ FairState.init.readers_active ∧ 0 ≤ FairState.init.waiting_count) ∧
    0 ≤ RPState.init.reader_count :=
  ⟨C5_counters_nonnegative.1 WPState.init WP.MReachable.init,
   C5_counters_nonnegative.2.1 FairState.init Fair.MReachable.init,
   C5_counters_nonnegative.2.2 RPState.init RP.MReachable.init⟩

/-- Claim C6: `WriterPriorityRWLock.release_write` clears
`writer_active`, leaves both counters unchanged, and wakes exactly one
writer on the writers' condition precisely when writers are waiting,
otherwise broadcasts to all readers on the readers' condition. -/
theorem C6_write_release_wake_protocol :
    ∀ s : WPState,
      (WP.writeRelease s).1.writer_active = false ∧
      (WP.writeRelease s).1.reader_count = s.reader_count ∧
      (WP.writeRelease s).1.writer_waiting_count = s.writer_waiting_count ∧
      ((WP.writeRelease s).2 = Wake.notifyOne CondVar.writersOk ↔
        0 < s.writer_waiting_count) ∧
      ((WP.writeRelease s).2 = Wake.notifyAll CondVar.readersOk ↔
        ¬ 0 < s.writer_waiting_count) := by
  intro s
  refine ⟨rfl, rfl, rfl, ?_, ?_⟩ <;>
    · simp only [WP.writeRelease]
      split <;> simp_all

/-- Claim C7: `ReaderPriorityRWLock`: `acquire_read` increments the
count and acquires the writer gate exactly on the 0→1 transition;
`release_read` decrements and releases the gate exactly on the 1→0
transition; `acquire_write`/`release_write` acquire and release the
gate directly without touching the count. -/
theorem C7_reader_priority_gate_protocol :
    ∀ s : RPState,
      (RP.readAcquire s).reader_count = s.reader_count + 1 ∧
      (s.reader_count = 0 → (RP.readAcquire s).writer_lock = true) ∧
      (s.reader_count ≠ 0 →
        (RP.readAcquire s).writer_lock = s.writer_lock) ∧
      (RP.readRelease s).reader_count = s.reader_count - 1 ∧
      (s.reader_count = 1 → (RP.readRelease s).writer_lock = false) ∧
      (s.reader_count ≠ 1 →
        (RP.readRelease s).writer_lock = s.writer_lock) ∧
      (RP.writeAcquire s).writer_lock = true ∧
      (RP.writeAcquire s).reader_count = s.reader_count ∧
      (RP.writeRelease s).writer_lock = false ∧
      (RP.writeRelease s).reader_count = s.reader_count := by
  intro s
  refine ⟨rfl, ?_, ?_, rfl, ?_, ?_, rfl, rfl, rfl, rfl⟩
  · intro h
    simp [RP.readAcquire, h]
  · intro h
    have hne : ¬(s.reader_count + 1 = 1) := by omega
    simp [RP.readAcquire, hne]
  · intro h
    simp [RP.readRelease, h]
  · intro h
    have hne : ¬(s.reader_count - 1 = 0) := by omega
    simp [RP.readRelease, hne]

/-- Claim C10: the `WriterPriorityRWLock` classes of `rw_lock/lock.py`
and `rw_lock/locks.py` are behaviourally identical: from equal states,
every operation — both halves of each acquire with their wait-loop
guards, each release with its wake action, and the scoped `read()` /
`write()` wrappers — performs the same transition. -/
theorem C10_lock_py_locks_py_equivalent :
    ∀ (E A : Type) (s : WPState) (body : Except E A),
      LockPy.readAcquire s = WP.readAcquire s ∧
      (LockPy.readAcquireGuard s ↔ WP.readAcquireGuard s) ∧
      LockPy.readRelease s = WP.readRelease s ∧
      LockPy.writeStart s = WP.writeStart s ∧
      (LockPy.writeFinishGuard s ↔ WP.writeFinishGuard s) ∧
      LockPy.writeFinish s = WP.writeFinish s ∧
      LockPy.writeRelease s = WP.writeRelease s ∧
      LockPy.readScoped s body = WP.readScoped s body ∧
      LockPy.writeScoped s body = WP.writeScoped s body := by
  intro E A s body
  exact ⟨rfl, Iff.rfl, rfl, rfl, Iff.rfl, rfl, rfl, rfl, rfl⟩


/-- Claim C7 witness: the gate protocol evaluated on both sides of each
transition. -/
theorem C7_reader_priority_gate_protocol_witness :
    (RP.readAcquire { reader_count := 0, writer_lock := false }).writer_lock
        = true ∧
    (RP.readAcquire { reader_count := 2, writer_lock := true }).writer_lock
        = true ∧
    (RP.readRelease { reader_count := 1, writer_lock := true }).writer_lock
        = false ∧
    (RP.readRelease { reader_count := 2, writer_lock := true }).writer_lock
        = true :=
  ⟨(C7_reader_priority_gate_protocol _).2.1 rfl,
   (C7_reader_priority_gate_protocol
      { reader_count := 2, writer_lock := true }).2.2.1 (by decide),
   (C7_reader_priority_gate_protocol _).2.2.2.2.1 rfl,
   (C7_reader_priority_gate_protocol
      { reader_count := 2, writer_lock := true }).2.2.2.2.2.1 (by decide)⟩

/-- Claim C8: `FairRWLock`: `release_read` decrements `readers_active`
and broadcasts on the shared queue exactly when the count reaches zero
with waiters present; `release_write` clears `writer_active` and
broadcasts exactly when waiters are present; neither ever issues a
targeted single wake. -/
theorem C8_fair_release_broadcast :
    ∀ s : FairState,
      (Fair.readRelease s).1.readers_active = s.readers_active - 1 ∧
      ((Fair.readRelease s).2 = Wake.notifyAll CondVar.queue ↔
        s.readers_active - 1 = 0 ∧ 0 < s.waiting_count) ∧
      ((Fair.readRelease s).2 = Wake.notifyAll CondVar.queue ∨
        (Fair.readRelease s).2 = Wake.silent) ∧
      (Fair.writeRelease s).1.writer_active = false ∧
      ((Fair.writeRelease s).2 = Wake.notifyAll CondVar.queue ↔
        0 < s.waiting_count) ∧
      ((Fair.writeRelease s).2 = Wake.notifyAll CondVar.queue ∨
        (Fair.writeRelease s).2 = Wake.silent) := by
  intro s
  refine ⟨rfl, ?_, ?_, rfl, ?_, ?_⟩ <;>
    · simp only [Fair.readRelease, Fair.writeRelease]
      split <;> simp_all
